import Mathlib

/-!
# Smart Drainage backend (`server2.js`)

A shallow embedding of the request handlers of `server2.js` and of the two
pieces of process-wide state they share: the in-memory list `readings` and
the debounce variable `lastAlertTime`.

* JavaScript values that can reach the handlers are carried by `JsVal`.
* `Date.now()` is an integer number of milliseconds; the values it returns
  during one request are supplied by the environment record `Env`.
* `transporter.sendMail` is external: its settlement (resolve with a message
  id, or reject with an error message) is supplied by the environment.
* The asynchronous handler of `POST /data` is split at its only suspension
  point, `await sendAlert(...)`, into `postDataStart` and `postDataResume`;
  `postData` is the handler run without any other request in between.
-/

namespace Drain

/-! ## JavaScript values -/

/-- A JavaScript number. Finite values are carried as rationals, of which the
binary64 values are a subset on which the comparisons below agree with
IEEE 754. -/
inductive JsNum where
  | fin (q : ℚ)
  | posInf
  | negInf
  | nan
  deriving DecidableEq

/-- The relational operator `a < b` on numbers. -/
def JsNum.lt : JsNum → JsNum → Bool
  | .nan, _ => false
  | _, .nan => false
  | .fin a, .fin b => decide (a < b)
  | .fin _, .posInf => true
  | .fin _, .negInf => false
  | .posInf, _ => false
  | .negInf, .negInf => false
  | .negInf, _ => true

/-- The relational operator `a >= b` on numbers (false when either is NaN). -/
def JsNum.ge : JsNum → JsNum → Bool
  | .nan, _ => false
  | _, .nan => false
  | a, b => !(JsNum.lt a b)

/-- A JavaScript value as produced by the JSON body parser, plus `undefined`. -/
inductive JsVal where
  | undefined
  | null
  | bool (b : Bool)
  | num (n : JsNum)
  | str (s : String)
  | arr (items : List JsVal)
  | obj (fields : List (String × JsVal))

/-- Truthiness, as used by `req.body || {}`. -/
def JsVal.truthy : JsVal → Bool
  | .undefined => false
  | .null => false
  | .bool b => b
  | .num (.fin q) => decide (q ≠ 0)
  | .num .nan => false
  | .num _ => true
  | .str s => s != ""
  | .arr _ => true
  | .obj _ => true

/-- Property read `v[k]` for the keys the handler destructures (`distance`,
`motor`): own field of an object, `undefined` on anything else. -/
def JsVal.getProp (v : JsVal) (k : String) : JsVal :=
  match v with
  | .obj fields =>
    match fields.lookup k with
    | some x => x
    | none => .undefined
  | _ => .undefined

/-- The test `['ON', 'OFF'].includes(motor)`. -/
def motorIncluded : JsVal → Bool
  | .str s => s == "ON" || s == "OFF"
  | _ => false

/-! ## Process state -/

/-- The object `{ distance, motor, ts }` pushed on `readings`. -/
structure Reading where
  distance : JsVal
  motor : JsVal
  ts : Int

/-- The module-level mutable state: `readings` and `lastAlertTime`. -/
structure Server where
  readings : List Reading
  lastAlertTime : Int

/-- State at process start: `readings = []`, `lastAlertTime = 0`. -/
def Server.init : Server := ⟨[], 0⟩

/-- The constant `ALERT_COOLDOWN = 5 * 60 * 1000`. -/
def ALERT_COOLDOWN : Int := 5 * 60 * 1000

/-- The object `EMAIL_CONFIG`, read from the process environment (`recipient`
is its field `to`). -/
structure EmailConfig where
  service : String
  user : Option String
  pass : Option String
  recipient : Option String

/-! ## Responses -/

/-- Bodies sent by the handlers. -/
inductive ResBody where
  | text (s : String)
  | data (count : Nat) (latest : Option Reading)
  | invalid (error : String) (got : JsVal)
  | ok
  | emailOk (service : String) (sender : Option String) (recipient : Option String)
  | emailError (message : String)

/-- A response: status code and body. -/
structure Response where
  status : Nat
  body : ResBody

/-- The response `res.json({ ok: true })`. -/
def okResponse : Response := ⟨200, .ok⟩

/-- The response `res.status(400).json({ error: ..., got: req.body })`. -/
def badRequest (body : JsVal) : Response :=
  ⟨400, .invalid "Invalid payload. Expect: \x7b distance: number, motor: \"ON\"|\"OFF\" \x7d" body⟩

/-! ## Handlers -/

/-- The settlement of `transporter.sendMail`: a message id, or an error. -/
abbrev MailOutcome := Except String String

/-- The function `sendAlert(distance, motor)`: true when `sendMail` resolves, false when it
rejects (the `catch` branch). -/
def sendAlert (_distance _motor : JsVal) (mail : MailOutcome) : Bool :=
  match mail with
  | .ok _ => true
  | .error _ => false

/-- Handler of `GET /`. -/
def getRoot : Response := ⟨200, .text "Smart Drainage backend is running"⟩

/-- Handler of `GET /data`. -/
def getData (s : Server) : Response :=
  ⟨200, .data s.readings.length (if s.readings.length ≠ 0 then s.readings.getLast? else none)⟩

/-- Handler of `GET /email-test`: `transporter.verify()` resolves or rejects. -/
def emailTest (cfg : EmailConfig) (verify : Except String Bool) : Response :=
  match verify with
  | .ok _ => ⟨200, .emailOk cfg.service cfg.user cfg.recipient⟩
  | .error message => ⟨500, .emailError message⟩

/-- The expression `req.body || {}`. -/
def bodyOrEmpty (body : JsVal) : JsVal :=
  if body.truthy then body else .obj []

/-- The variable `distance` of `const { distance, motor } = req.body || {}`. -/
def distanceOf (body : JsVal) : JsVal := (bodyOrEmpty body).getProp "distance"

/-- The variable `motor` of `const { distance, motor } = req.body || {}`. -/
def motorOf (body : JsVal) : JsVal := (bodyOrEmpty body).getProp "motor"

/-- Where the `POST /data` handler stands after its first synchronous segment:
it has responded, or it is suspended at `await sendAlert(distance, motor)`
holding its local `now`. -/
inductive Started where
  | done (s : Server) (res : Response)
  | awaiting (s : Server) (now : Int) (distance motor : JsVal)

/-- Handler of `POST /data` up to `await sendAlert(...)` (or to its response when that
point is not reached). `tsClock` is `Date.now()` when `event` is built,
`nowClock` is `Date.now()` inside `if (distance < 200)`. -/
def postDataStart (s : Server) (body : JsVal) (tsClock nowClock : Int) : Started :=
  let distance := distanceOf body
  let motor := motorOf body
  match distance with
  | .num d =>
    if motorIncluded motor then
      let event : Reading := ⟨distance, motor, tsClock⟩
      let s1 : Server := { s with readings := s.readings ++ [event] }
      if d.lt (.fin 200) then
        let now := nowClock
        let timeSinceLastAlert := now - s1.lastAlertTime
        if timeSinceLastAlert ≥ ALERT_COOLDOWN then
          .awaiting s1 now distance motor
        else
          .done s1 okResponse
      else
        .done s1 okResponse
    else
      .done s (badRequest body)
  | _ => .done s (badRequest body)

/-- Handler of `POST /data` from the point where `await sendAlert(...)` yields `emailSent`
to the response. `s` is the state at that moment. -/
def postDataResume (s : Server) (now : Int) (emailSent : Bool) : Server × Response :=
  let s1 : Server := if emailSent then { s with lastAlertTime := now } else s
  (s1, okResponse)

/-- What the environment supplies to one `POST /data` request. -/
structure Env where
  /-- Value of `Date.now()` at `const event = { distance, motor, ts: Date.now() }`. -/
  tsClock : Int
  /-- Value of `Date.now()` at `const now = Date.now()`. -/
  nowClock : Int
  /-- Settlement of `transporter.sendMail`, if it is called. -/
  mail : MailOutcome
  /-- Clock value when `sendMail` settles and `sendAlert` returns. -/
  settleClock : Int

/-- The call `sendAlert(distance, motor)` made by a request, and its result. -/
structure Attempt where
  distance : JsVal
  motor : JsVal
  emailSent : Bool

/-- Outcome of one `POST /data` request handled alone. -/
structure PostResult where
  server : Server
  response : Response
  attempt : Option Attempt

/-- Handler of `POST /data` run with no other request in between. -/
def postData (s : Server) (body : JsVal) (e : Env) : PostResult :=
  match postDataStart s body e.tsClock e.nowClock with
  | .done s1 res => ⟨s1, res, none⟩
  | .awaiting s1 now distance motor =>
    let emailSent := sendAlert distance motor e.mail
    let r := postDataResume s1 now emailSent
    ⟨r.1, r.2, some ⟨distance, motor, emailSent⟩⟩

/-! ## Sequences of requests -/

/-- One `POST /data` request: its body and what the environment supplies. -/
abbrev Post := JsVal × Env

/-- A sequence of `POST /data` requests handled one at a time. -/
def runPosts (s : Server) : List Post → Server
  | [] => s
  | r :: rs => runPosts (postData s r.1 r.2).server rs

/-- The outcomes of a sequence of `POST /data` requests handled one at a time,
request by request. -/
def tracePosts (s : Server) : List Post → List PostResult
  | [] => []
  | r :: rs => postData s r.1 r.2 :: tracePosts (postData s r.1 r.2).server rs

/-- A request routed to one of the four handlers. -/
inductive Request where
  | root
  | data
  | post (body : JsVal) (e : Env)
  | emailTest (verify : Except String Bool)

/-- Dispatch of one request, handled to completion. -/
def handle (cfg : EmailConfig) (s : Server) : Request → Server × Response
  | .root => (s, getRoot)
  | .data => (s, getData s)
  | .post body e => ((postData s body e).server, (postData s body e).response)
  | .emailTest verify => (s, emailTest cfg verify)

/-- A sequence of requests handled one at a time. -/
def run (cfg : EmailConfig) (s : Server) : List Request → Server
  | [] => s
  | r :: rs => run cfg (handle cfg s r).1 rs

/-! ## Interleaved handlers

Node runs each synchronous segment of a handler to completion; another
request can be dispatched only while a handler is suspended at an `await`. -/

/-- A `POST /data` handler suspended at `await sendAlert(distance, motor)`. -/
structure Pending where
  id : Nat
  now : Int
  distance : JsVal
  motor : JsVal

/-- What the event loop runs next: the first segment of a newly dispatched
`POST /data` request, or the rest of the suspended handler `id` once its
`sendMail` has settled. -/
inductive Event where
  | request (id : Nat) (body : JsVal) (tsClock nowClock : Int)
  | settled (id : Nat) (mail : MailOutcome)

/-- State of the process with suspended handlers, and a log of the calls of
`sendAlert` (`attempts`: handler id and its local `now`) and of those that
returned true (`delivered`). -/
structure Sys where
  server : Server
  pending : List Pending
  attempts : List (Nat × Int)
  delivered : List (Nat × Int)
  responses : List (Nat × Response)

/-- The process with state `s` and no handler in flight. -/
def Sys.idle (s : Server) : Sys := ⟨s, [], [], [], []⟩

/-- One turn of the event loop. -/
def Sys.step (σ : Sys) : Event → Sys
  | .request id body tsClock nowClock =>
    match postDataStart σ.server body tsClock nowClock with
    | .done s res => { σ with server := s, responses := σ.responses ++ [(id, res)] }
    | .awaiting s now distance motor =>
      { σ with
        server := s
        pending := σ.pending ++ [⟨id, now, distance, motor⟩]
        attempts := σ.attempts ++ [(id, now)] }
  | .settled id mail =>
    match σ.pending.find? (fun p => p.id == id) with
    | none => σ
    | some p =>
      let emailSent := sendAlert p.distance p.motor mail
      let r := postDataResume σ.server p.now emailSent
      { σ with
        server := r.1
        pending := σ.pending.filter (fun q => q.id != id)
        delivered := if emailSent then σ.delivered ++ [(id, p.now)] else σ.delivered
        responses := σ.responses ++ [(id, r.2)] }

/-- A schedule of event-loop turns. -/
def Sys.run (σ : Sys) : List Event → Sys
  | [] => σ
  | ev :: evs => Sys.run (σ.step ev) evs

/-! ## Vocabulary of the properties -/

/-- The body carries a valid reading whose distance is the number `d`:
`distance` is of type number and `motor` is the string "ON" or "OFF". -/
def ValidReading (body : JsVal) (d : JsNum) : Prop :=
  distanceOf body = .num d ∧ (motorOf body = .str "ON" ∨ motorOf body = .str "OFF")

/-- The payload passes the shape check of `POST /data`. -/
def validPayload (body : JsVal) : Bool :=
  match distanceOf body with
  | .num _ => motorIncluded (motorOf body)
  | _ => false

/-- The reading `{ distance, motor, ts }` built from a request. -/
def readingOf (r : Post) : Reading := ⟨distanceOf r.1, motorOf r.1, r.2.tsClock⟩

/-- The first of two handlers called `sendAlert` with `now = ta` and got true,
and the second called `sendAlert` with its `now` less than a cooldown after
`ta`. -/
def DoubleAlert (σ : Sys) (a b : Nat) : Prop :=
  ∃ ta tb, (a, ta) ∈ σ.delivered ∧ (b, tb) ∈ σ.attempts ∧ tb < ta + 300000

/-- Whether the request called `sendAlert` and got true. -/
def PostResult.delivered (o : PostResult) : Bool :=
  match o.attempt with
  | some a => a.emailSent
  | none => false

/-- Every stored reading has a number as `distance` and the string "ON" or
"OFF" as `motor`. -/
def WellShaped (s : Server) : Prop :=
  ∀ r ∈ s.readings, (∃ d, r.distance = .num d) ∧ (r.motor = .str "ON" ∨ r.motor = .str "OFF")

/-- A JSON body `{ "distance": d, "motor": m }`. -/
def payload (d : ℚ) (m : String) : JsVal :=
  .obj [("distance", .num (.fin d)), ("motor", .str m)]

/-- The scenario of readings 250, 150, 140, 130 cm arriving at `t0`, `t0 + 1 s`,
`t0 + 1 min`, `t0 + 6 min`, every mail being delivered within 400 ms. -/
def scenario : List Post :=
  [(payload 250 "OFF", ⟨1700000000000, 1700000000000, .ok "m0", 1700000000400⟩),
   (payload 150 "ON", ⟨1700000001000, 1700000001000, .ok "m1", 1700000001400⟩),
   (payload 140 "ON", ⟨1700000060000, 1700000060000, .ok "m2", 1700000060400⟩),
   (payload 130 "ON", ⟨1700000360000, 1700000360000, .ok "m3", 1700000360400⟩)]

/-! ## Basic facts about the handler -/

theorem motorIncluded_iff (v : JsVal) :
    motorIncluded v = true ↔ v = .str "ON" ∨ v = .str "OFF" := by
  cases v <;> simp [motorIncluded]

theorem JsNum.not_lt_of_ge {a b : JsNum} (h : a.ge b = true) : a.lt b = false := by
  cases a <;> cases b <;> simp_all [JsNum.ge, JsNum.lt]

/-- First segment on a valid reading. -/
theorem postDataStart_valid (s : Server) (body : JsVal) (ts now : Int) (d : JsNum)
    (hv : ValidReading body d) :
    postDataStart s body ts now =
      if d.lt (.fin 200) = true ∧ now - s.lastAlertTime ≥ ALERT_COOLDOWN then
        .awaiting ⟨s.readings ++ [⟨.num d, motorOf body, ts⟩], s.lastAlertTime⟩ now
          (.num d) (motorOf body)
      else
        .done ⟨s.readings ++ [⟨.num d, motorOf body, ts⟩], s.lastAlertTime⟩ okResponse := by
  obtain ⟨hd, hm⟩ := hv
  have hm2 : motorIncluded (motorOf body) = true := (motorIncluded_iff _).2 hm
  unfold postDataStart
  simp only [hd, hm2, if_true]
  by_cases h1 : d.lt (.fin 200) = true
  · by_cases h2 : now - s.lastAlertTime ≥ ALERT_COOLDOWN
    · simp [h1, h2]
    · simp [h1, h2]
  · simp [h1]

/-- First segment on a payload that fails the shape check. -/
theorem postDataStart_invalid (s : Server) (body : JsVal) (ts now : Int)
    (h : validPayload body = false) :
    postDataStart s body ts now = .done s (badRequest body) := by
  unfold postDataStart
  unfold validPayload at h
  cases hd : distanceOf body <;> simp_all

/-- The whole handler on a valid reading. -/
theorem postData_valid (s : Server) (body : JsVal) (e : Env) (d : JsNum)
    (hv : ValidReading body d) :
    postData s body e =
      if d.lt (.fin 200) = true ∧ e.nowClock - s.lastAlertTime ≥ ALERT_COOLDOWN then
        ⟨⟨s.readings ++ [⟨.num d, motorOf body, e.tsClock⟩],
            if sendAlert (.num d) (motorOf body) e.mail = true then e.nowClock
            else s.lastAlertTime⟩,
          okResponse, some ⟨.num d, motorOf body, sendAlert (.num d) (motorOf body) e.mail⟩⟩
      else
        ⟨⟨s.readings ++ [⟨.num d, motorOf body, e.tsClock⟩], s.lastAlertTime⟩,
          okResponse, none⟩ := by
  unfold postData
  rw [postDataStart_valid s body e.tsClock e.nowClock d hv]
  by_cases h : d.lt (.fin 200) = true ∧ e.nowClock - s.lastAlertTime ≥ ALERT_COOLDOWN
  · rw [if_pos h, if_pos h]
    cases hs : sendAlert (.num d) (motorOf body) e.mail <;> simp [postDataResume, hs]
  · rw [if_neg h, if_neg h]

/-- The whole handler on a payload that fails the shape check. -/
theorem postData_invalid (s : Server) (body : JsVal) (e : Env)
    (h : validPayload body = false) :
    postData s body e = ⟨s, badRequest body, none⟩ := by
  unfold postData
  rw [postDataStart_invalid s body e.tsClock e.nowClock h]

theorem validReading_of_validPayload {body : JsVal} (h : validPayload body = true) :
    ∃ d, ValidReading body d := by
  unfold validPayload at h
  cases hd : distanceOf body <;> simp_all
  rename_i n
  exact ⟨n, hd, (motorIncluded_iff _).1 h⟩

theorem ALERT_COOLDOWN_eq : ALERT_COOLDOWN = 300000 := by
  unfold ALERT_COOLDOWN; norm_num

/-! ## The cooldown decision of one request -/

/-- C1: with `lastAlertTime = t`, a valid reading with `distance < 200` handled
at clock value `now` calls `sendAlert` exactly when `now - t >= 300000`; when
`now - t < 300000` no call is made and `lastAlertTime` stays `t`. -/
theorem c1_attempt_iff_cooldown_elapsed (s : Server) (body : JsVal) (e : Env) (d : JsNum)
    (hv : ValidReading body d) (hq : d.lt (.fin 200) = true) :
    ((postData s body e).attempt.isSome = true ↔ e.nowClock - s.lastAlertTime ≥ 300000) ∧
    (e.nowClock - s.lastAlertTime < 300000 →
      (postData s body e).attempt = none ∧
      (postData s body e).server.lastAlertTime = s.lastAlertTime) := by
  rw [postData_valid s body e d hv, ALERT_COOLDOWN_eq]
  by_cases h : e.nowClock - s.lastAlertTime ≥ 300000
  · simp [hq, h]
  · simp [hq, h]

/-- Witness for C1: a reading of 150 cm, 60 s after a delivery recorded at
1 000 000 ms. -/
theorem c1_attempt_iff_cooldown_elapsed_witness :
    ValidReading (payload 150 "ON") (.fin 150) ∧ JsNum.lt (.fin 150) (.fin 200) = true ∧
    (((postData ⟨[], 1000000⟩ (payload 150 "ON") ⟨1060000, 1060000, .ok "id", 1061000⟩).attempt.isSome
          = true ↔ (1060000 : Int) - 1000000 ≥ 300000) ∧
      ((1060000 : Int) - 1000000 < 300000 →
        (postData ⟨[], 1000000⟩ (payload 150 "ON") ⟨1060000, 1060000, .ok "id", 1061000⟩).attempt
            = none ∧
        (postData ⟨[], 1000000⟩ (payload 150 "ON")
            ⟨1060000, 1060000, .ok "id", 1061000⟩).server.lastAlertTime = 1000000)) :=
  ⟨⟨rfl, Or.inl rfl⟩, by simp [JsNum.lt]; norm_num,
    c1_attempt_iff_cooldown_elapsed ⟨[], 1000000⟩ (payload 150 "ON")
      ⟨1060000, 1060000, .ok "id", 1061000⟩ (.fin 150) ⟨rfl, Or.inl rfl⟩
      (by simp [JsNum.lt]; norm_num)⟩

/-- C2: when a valid reading with `distance < 200` leads to a call of
`sendAlert` that returns false, `lastAlertTime` is the same after the handler
as before it, and any next valid reading with `distance < 200` gets the same
call or no call of `sendAlert` as it would from the state before the failed
attempt. -/
theorem c2_failed_delivery_keeps_debounce (s : Server) (body : JsVal) (e : Env) (d : JsNum)
    (hv : ValidReading body d) (_hq : d.lt (.fin 200) = true)
    (hf : ∃ a, (postData s body e).attempt = some a ∧ a.emailSent = false) :
    (postData s body e).server.lastAlertTime = s.lastAlertTime ∧
    ∀ (body2 : JsVal) (e2 : Env) (d2 : JsNum), ValidReading body2 d2 →
      d2.lt (.fin 200) = true →
      (postData (postData s body e).server body2 e2).attempt = (postData s body2 e2).attempt := by
  have hlast : (postData s body e).server.lastAlertTime = s.lastAlertTime := by
    obtain ⟨a, ha, hsent⟩ := hf
    rw [postData_valid s body e d hv] at ha ⊢
    by_cases h : d.lt (.fin 200) = true ∧ e.nowClock - s.lastAlertTime ≥ ALERT_COOLDOWN
    · rw [if_pos h] at ha ⊢
      simp only [Option.some.injEq] at ha
      subst ha
      simp only at hsent
      simp [hsent]
    · rw [if_neg h]
  refine ⟨hlast, ?_⟩
  intro body2 e2 d2 hv2 _
  rw [postData_valid _ body2 e2 d2 hv2, postData_valid s body2 e2 d2 hv2, hlast]
  by_cases h : d2.lt (.fin 200) = true ∧ e2.nowClock - s.lastAlertTime ≥ ALERT_COOLDOWN
  · rw [if_pos h, if_pos h]
  · rw [if_neg h, if_neg h]

/-- Witness for C2: the mail transport rejects at the first qualifying
reading after start. -/
theorem c2_failed_delivery_keeps_debounce_witness :
    (postData ⟨[], 0⟩ (payload 150 "ON")
        ⟨1000000, 1000000, .error "ECONNREFUSED", 1000400⟩).server.lastAlertTime = 0 ∧
    ∀ (body2 : JsVal) (e2 : Env) (d2 : JsNum), ValidReading body2 d2 →
      d2.lt (.fin 200) = true →
      (postData (postData ⟨[], 0⟩ (payload 150 "ON")
          ⟨1000000, 1000000, .error "ECONNREFUSED", 1000400⟩).server body2 e2).attempt
        = (postData ⟨[], 0⟩ body2 e2).attempt :=
  c2_failed_delivery_keeps_debounce ⟨[], 0⟩ (payload 150 "ON")
    ⟨1000000, 1000000, .error "ECONNREFUSED", 1000400⟩ (.fin 150) ⟨rfl, Or.inl rfl⟩
    (by simp [JsNum.lt]; norm_num)
    ⟨⟨.num (.fin 150), .str "ON", false⟩, by
      rw [postData_valid ⟨[], 0⟩ (payload 150 "ON") _ (.fin 150) ⟨rfl, Or.inl rfl⟩]
      simp [JsNum.lt, ALERT_COOLDOWN, sendAlert, motorOf, bodyOrEmpty, payload, JsVal.truthy,
        JsVal.getProp, List.lookup]
      norm_num, rfl⟩

/-- C3: a valid reading with `distance >= 200` never leads to a call of
`sendAlert` and leaves `lastAlertTime` unchanged, whatever `lastAlertTime` and
the clock are; the reading is appended to `readings` and acknowledged with
`{ ok: true }`. -/
theorem c3_above_threshold_no_attempt (s : Server) (body : JsVal) (e : Env) (d : JsNum)
    (hv : ValidReading body d) (hge : d.ge (.fin 200) = true) :
    (postData s body e).attempt = none ∧
    (postData s body e).server.lastAlertTime = s.lastAlertTime ∧
    (postData s body e).server.readings
      = s.readings ++ [⟨distanceOf body, motorOf body, e.tsClock⟩] ∧
    (postData s body e).response = okResponse := by
  have hlt : d.lt (.fin 200) = false := JsNum.not_lt_of_ge hge
  rw [postData_valid s body e d hv]
  simp [hlt, hv.1]

/-- Witness for C3: a reading of 250 cm right after a delivery. -/
theorem c3_above_threshold_no_attempt_witness :
    (postData ⟨[], 1000000⟩ (payload 250 "OFF") ⟨1000001, 1000001, .ok "id", 1000002⟩).attempt
      = none ∧
    (postData ⟨[], 1000000⟩ (payload 250 "OFF")
      ⟨1000001, 1000001, .ok "id", 1000002⟩).server.lastAlertTime = 1000000 ∧
    (postData ⟨[], 1000000⟩ (payload 250 "OFF")
      ⟨1000001, 1000001, .ok "id", 1000002⟩).server.readings
      = [] ++ [⟨distanceOf (payload 250 "OFF"), motorOf (payload 250 "OFF"), 1000001⟩] ∧
    (postData ⟨[], 1000000⟩ (payload 250 "OFF")
      ⟨1000001, 1000001, .ok "id", 1000002⟩).response = okResponse :=
  c3_above_threshold_no_attempt ⟨[], 1000000⟩ (payload 250 "OFF")
    ⟨1000001, 1000001, .ok "id", 1000002⟩ (.fin 250) ⟨rfl, Or.inr rfl⟩
    (by simp [JsNum.ge, JsNum.lt]; norm_num)

/-- Counterexample to C4 as stated: in the initial state `lastAlertTime` is 0,
so a reading of 150 cm handled while the clock reads 1000 ms finds
`now - lastAlertTime = 1000 < 300000` and `sendAlert` is not called. -/
theorem c4_first_reading_counterexample :
    ¬ ∀ (body : JsVal) (e : Env) (d : JsNum), ValidReading body d → d.lt (.fin 200) = true →
      (postData Server.init body e).attempt.isSome = true := by
  intro h
  have h1 := h (payload 150 "ON") ⟨1000, 1000, .ok "id", 1500⟩ (.fin 150) ⟨rfl, Or.inl rfl⟩
    (by simp [JsNum.lt]; norm_num)
  rw [postData_valid Server.init (payload 150 "ON") _ (.fin 150) ⟨rfl, Or.inl rfl⟩] at h1
  simp [Server.init, ALERT_COOLDOWN] at h1

/-- C4 (amended): in the initial state, a valid reading with `distance < 200`
handled at a clock value `now >= 300000` leads to a call of `sendAlert`; if
the call returns true, `lastAlertTime` becomes `now`, and a following valid
reading with `distance < 200` less than 300000 ms after `now` leads to no
call. -/
theorem c4_first_reading_attempts (body : JsVal) (e : Env) (d : JsNum)
    (hv : ValidReading body d) (hq : d.lt (.fin 200) = true) (hnow : 300000 ≤ e.nowClock) :
    (postData Server.init body e).attempt.isSome = true ∧
    ((∃ a, (postData Server.init body e).attempt = some a ∧ a.emailSent = true) →
      (postData Server.init body e).server.lastAlertTime = e.nowClock ∧
      ∀ (body2 : JsVal) (e2 : Env) (d2 : JsNum), ValidReading body2 d2 →
        d2.lt (.fin 200) = true → e2.nowClock - e.nowClock < 300000 →
        (postData (postData Server.init body e).server body2 e2).attempt = none) := by
  have hcond : d.lt (.fin 200) = true ∧
      e.nowClock - Server.init.lastAlertTime ≥ ALERT_COOLDOWN := by
    refine ⟨hq, ?_⟩
    rw [ALERT_COOLDOWN_eq]
    simp only [Server.init]
    omega
  have hpost := postData_valid Server.init body e d hv
  rw [if_pos hcond] at hpost
  refine ⟨by rw [hpost]; rfl, ?_⟩
  rintro ⟨a, ha, hsent⟩
  have hlast : (postData Server.init body e).server.lastAlertTime = e.nowClock := by
    rw [hpost] at ha ⊢
    simp only [Option.some.injEq] at ha
    subst ha
    simp only at hsent
    simp [hsent]
  refine ⟨hlast, ?_⟩
  intro body2 e2 d2 hv2 _ hclose
  rw [postData_valid _ body2 e2 d2 hv2, hlast, ALERT_COOLDOWN_eq]
  have hno : ¬ (d2.lt (.fin 200) = true ∧ e2.nowClock - e.nowClock ≥ 300000) := by
    rintro ⟨_, h2⟩
    omega
  rw [if_neg hno]

/-- Witness for the amended C4: first reading of 150 cm at a present-day
clock value, delivered. -/
theorem c4_first_reading_attempts_witness :
    (postData Server.init (payload 150 "ON")
      ⟨1700000000000, 1700000000001, .ok "id", 1700000000900⟩).attempt.isSome = true ∧
    ((∃ a, (postData Server.init (payload 150 "ON")
        ⟨1700000000000, 1700000000001, .ok "id", 1700000000900⟩).attempt = some a ∧
        a.emailSent = true) →
      (postData Server.init (payload 150 "ON")
        ⟨1700000000000, 1700000000001, .ok "id", 1700000000900⟩).server.lastAlertTime
          = 1700000000001 ∧
      ∀ (body2 : JsVal) (e2 : Env) (d2 : JsNum), ValidReading body2 d2 →
        d2.lt (.fin 200) = true → e2.nowClock - 1700000000001 < 300000 →
        (postData (postData Server.init (payload 150 "ON")
          ⟨1700000000000, 1700000000001, .ok "id", 1700000000900⟩).server body2 e2).attempt
            = none) :=
  c4_first_reading_attempts (payload 150 "ON")
    ⟨1700000000000, 1700000000001, .ok "id", 1700000000900⟩ (.fin 150) ⟨rfl, Or.inl rfl⟩
    (by simp [JsNum.lt]; norm_num) (by norm_num)

/-! ## Rejected payloads -/

/-- C6: a body whose `distance` is not a number, or whose `motor` is neither
the string "ON" nor the string "OFF" (a missing body or field reads as
`undefined`), gets status 400 with the received body under `got`; nothing is
appended to `readings`, `lastAlertTime` is unchanged and `sendAlert` is not
called. -/
theorem c6_malformed_payload_rejected (s : Server) (body : JsVal) (e : Env)
    (h : (∀ d, distanceOf body ≠ .num d) ∨
      (motorOf body ≠ .str "ON" ∧ motorOf body ≠ .str "OFF")) :
    (postData s body e).response.status = 400 ∧
    (∃ msg, (postData s body e).response.body = .invalid msg body) ∧
    (postData s body e).server.readings = s.readings ∧
    (postData s body e).server.lastAlertTime = s.lastAlertTime ∧
    (postData s body e).attempt = none := by
  have hinv : validPayload body = false := by
    cases hval : validPayload body
    · rfl
    · obtain ⟨d, hd, hm⟩ := validReading_of_validPayload hval
      rcases h with h | h
      · exact absurd hd (h d)
      · rcases hm with hm | hm
        · exact absurd hm h.1
        · exact absurd hm h.2
  rw [postData_invalid s body e hinv]
  exact ⟨rfl, ⟨_, rfl⟩, rfl, rfl, rfl⟩

/-- Witness for C6: the body `{ "distance": "far", "motor": "MAYBE" }`. -/
theorem c6_malformed_payload_rejected_witness :
    (postData ⟨[], 5⟩ (.obj [("distance", .str "far"), ("motor", .str "MAYBE")])
      ⟨10, 10, .ok "id", 11⟩).response.status = 400 ∧
    (∃ msg, (postData ⟨[], 5⟩ (.obj [("distance", .str "far"), ("motor", .str "MAYBE")])
      ⟨10, 10, .ok "id", 11⟩).response.body
        = .invalid msg (.obj [("distance", .str "far"), ("motor", .str "MAYBE")])) ∧
    (postData ⟨[], 5⟩ (.obj [("distance", .str "far"), ("motor", .str "MAYBE")])
      ⟨10, 10, .ok "id", 11⟩).server.readings = [] ∧
    (postData ⟨[], 5⟩ (.obj [("distance", .str "far"), ("motor", .str "MAYBE")])
      ⟨10, 10, .ok "id", 11⟩).server.lastAlertTime = 5 ∧
    (postData ⟨[], 5⟩ (.obj [("distance", .str "far"), ("motor", .str "MAYBE")])
      ⟨10, 10, .ok "id", 11⟩).attempt = none :=
  c6_malformed_payload_rejected ⟨[], 5⟩
    (.obj [("distance", .str "far"), ("motor", .str "MAYBE")]) ⟨10, 10, .ok "id", 11⟩
    (Or.inl (fun d hd => by
      have h2 : distanceOf (.obj [("distance", .str "far"), ("motor", .str "MAYBE")])
          = .str "far" := rfl
      rw [h2] at hd
      exact JsVal.noConfusion hd))

/-! ## The timestamp recorded on delivery -/

/-- Counterexample to C8 as stated: `now` is read at 1 000 000 ms, `sendAlert`
returns true at 1 002 000 ms, and `lastAlertTime` is set to 1 000 000. -/
theorem c8_recorded_time_counterexample :
    ¬ ∀ (s : Server) (body : JsVal) (e : Env),
      (∃ a, (postData s body e).attempt = some a ∧ a.emailSent = true) →
      (postData s body e).server.lastAlertTime = e.settleClock := by
  intro h
  have h1 := h Server.init (payload 150 "ON") ⟨1000000, 1000000, .ok "id", 1002000⟩
  rw [postData_valid Server.init (payload 150 "ON") _ (.fin 150) ⟨rfl, Or.inl rfl⟩] at h1
  simp [Server.init, ALERT_COOLDOWN, JsNum.lt, sendAlert] at h1
  norm_num at h1

/-- C8 (amended): whenever a call of `sendAlert` returns true, the value
stored in `lastAlertTime` is the local `now`, the clock value read before the
call was made and compared with the cooldown, whatever the clock reads when
`sendAlert` returns. -/
theorem c8_recorded_time_is_check_time (s : Server) (body : JsVal) (e : Env)
    (h : ∃ a, (postData s body e).attempt = some a ∧ a.emailSent = true) :
    (postData s body e).server.lastAlertTime = e.nowClock := by
  obtain ⟨a, ha, hsent⟩ := h
  cases hval : validPayload body
  · rw [postData_invalid s body e hval] at ha
    simp at ha
  · obtain ⟨d, hv⟩ := validReading_of_validPayload hval
    rw [postData_valid s body e d hv] at ha ⊢
    by_cases hc : d.lt (.fin 200) = true ∧ e.nowClock - s.lastAlertTime ≥ ALERT_COOLDOWN
    · rw [if_pos hc] at ha ⊢
      simp only [Option.some.injEq] at ha
      subst ha
      simp only at hsent
      simp [hsent]
    · rw [if_neg hc] at ha
      simp at ha

/-- Witness for the amended C8: the run of the counterexample. -/
theorem c8_recorded_time_is_check_time_witness :
    (postData Server.init (payload 150 "ON")
      ⟨1000000, 1000000, .ok "id", 1002000⟩).server.lastAlertTime = 1000000 :=
  c8_recorded_time_is_check_time Server.init (payload 150 "ON")
    ⟨1000000, 1000000, .ok "id", 1002000⟩
    ⟨⟨.num (.fin 150), .str "ON", true⟩, by
      rw [postData_valid Server.init (payload 150 "ON") _ (.fin 150) ⟨rfl, Or.inl rfl⟩]
      simp [JsNum.lt, ALERT_COOLDOWN, sendAlert, motorOf, bodyOrEmpty, payload, JsVal.truthy,
        JsVal.getProp, List.lookup, Server.init]
      norm_num, rfl⟩

/-! ## The event log -/

/-- What one `POST /data` request does to `readings`. -/
theorem postData_readings (s : Server) (r : Post) :
    (postData s r.1 r.2).server.readings =
      s.readings ++ (if validPayload r.1 = true then [readingOf r] else []) := by
  cases hval : validPayload r.1
  · rw [postData_invalid s r.1 r.2 hval]
    simp
  · obtain ⟨d, hv⟩ := validReading_of_validPayload hval
    rw [postData_valid s r.1 r.2 d hv]
    by_cases hc : d.lt (.fin 200) = true ∧ r.2.nowClock - s.lastAlertTime ≥ ALERT_COOLDOWN
    · rw [if_pos hc]
      simp [readingOf, hv.1]
    · rw [if_neg hc]
      simp [readingOf, hv.1]

theorem postData_readings_pair (s : Server) (body : JsVal) (e : Env) :
    (postData s body e).server.readings =
      s.readings ++ (if validPayload body = true then [readingOf (body, e)] else []) :=
  postData_readings s (body, e)

/-- The log after a sequence of requests: one reading per accepted request, in
order of arrival. -/
theorem runPosts_readings (posts : List Post) (s : Server) :
    (runPosts s posts).readings =
      s.readings ++ (posts.filter (fun r => validPayload r.1)).map readingOf := by
  induction posts generalizing s with
  | nil => simp [runPosts]
  | cons r rs ih =>
    rw [runPosts, ih, postData_readings]
    cases hval : validPayload r.1 <;> simp [List.filter, hval]

/-- C7: starting from an empty `readings` (and any `lastAlertTime`), after any
sequence of `POST /data` requests, `GET /data` answers with `count` equal to the
number of requests with a valid payload and `latest` equal to the reading built
from the last such request, or null when there is none. -/
theorem c7_count_and_latest (t : Int) (posts : List Post) :
    getData (runPosts ⟨[], t⟩ posts) =
      ⟨200, .data (posts.filter (fun r => validPayload r.1)).length
        (((posts.filter (fun r => validPayload r.1)).map readingOf).getLast?)⟩ := by
  unfold getData
  rw [runPosts_readings]
  simp only [List.nil_append, List.length_map]
  by_cases h : (posts.filter (fun r => validPayload r.1)).length = 0
  · have hnil : posts.filter (fun r => validPayload r.1) = [] := List.length_eq_zero.1 h
    simp [hnil]
  · simp [h]

/-- Requests preserve the shape of the stored readings. -/
theorem handle_wellShaped (cfg : EmailConfig) (s : Server) (req : Request)
    (h : WellShaped s) : WellShaped (handle cfg s req).1 := by
  cases req with
  | root => exact h
  | data => exact h
  | emailTest v => exact h
  | post body e =>
    intro r hr
    simp only [handle] at hr
    rw [postData_readings_pair] at hr
    rcases List.mem_append.1 hr with hr | hr
    · exact h r hr
    · cases hval : validPayload body
      · simp [hval] at hr
      · obtain ⟨d, hd, hm⟩ := validReading_of_validPayload hval
        simp [hval] at hr
        subst hr
        exact ⟨⟨d, hd⟩, hm⟩

theorem run_wellShaped (cfg : EmailConfig) (reqs : List Request) (s : Server)
    (h : WellShaped s) : WellShaped (run cfg s reqs) := by
  induction reqs generalizing s with
  | nil => exact h
  | cons r rs ih => exact ih _ (handle_wellShaped cfg s r h)

/-- Counterexample to C9 as stated: the body `{ "distance": -5, "motor": "ON" }`
passes the shape check and its reading, with distance -5, is stored. -/
theorem c9_nonnegative_distance_counterexample :
    ¬ ∀ (cfg : EmailConfig) (reqs : List Request) (r : Reading),
      r ∈ (run cfg Server.init reqs).readings →
      (∃ d, r.distance = .num d ∧ d.ge (.fin 0) = true) ∧
      (r.motor = .str "ON" ∨ r.motor = .str "OFF") := by
  intro h
  have h1 := h ⟨"gmail", none, none, none⟩
    [.post (payload (-5) "ON") ⟨1000000, 1000000, .ok "id", 1000400⟩]
    ⟨.num (.fin (-5)), .str "ON", 1000000⟩ (by
      simp only [run, handle]
      rw [postData_readings_pair]
      simp [Server.init, validPayload, distanceOf, motorOf, bodyOrEmpty, payload, JsVal.truthy,
        JsVal.getProp, List.lookup, motorIncluded, readingOf])
  obtain ⟨⟨d, hd, hge⟩, _⟩ := h1
  simp only [JsVal.num.injEq] at hd
  subst hd
  simp [JsNum.ge, JsNum.lt] at hge

/-- C9 (amended): in every state reached from the initial one by a sequence of
requests, every stored reading has a `distance` of type number (of either
sign) and a `motor` equal to "ON" or "OFF". -/
theorem c9_readings_well_shaped (cfg : EmailConfig) (reqs : List Request) (r : Reading)
    (hr : r ∈ (run cfg Server.init reqs).readings) :
    (∃ d, r.distance = .num d) ∧ (r.motor = .str "ON" ∨ r.motor = .str "OFF") := by
  have hinit : WellShaped Server.init := by
    intro x hx
    simp [Server.init] at hx
  exact run_wellShaped cfg reqs Server.init hinit r hr

/-- Witness for the amended C9: the reading stored by the counterexample run. -/
theorem c9_readings_well_shaped_witness :
    (∃ d, (⟨.num (.fin (-5)), .str "ON", 1000000⟩ : Reading).distance = .num d) ∧
    ((⟨.num (.fin (-5)), .str "ON", 1000000⟩ : Reading).motor = .str "ON" ∨
      (⟨.num (.fin (-5)), .str "ON", 1000000⟩ : Reading).motor = .str "OFF") :=
  c9_readings_well_shaped ⟨"gmail", none, none, none⟩
    [.data, .post (payload (-5) "ON") ⟨1000000, 1000000, .ok "id", 1000400⟩]
    ⟨.num (.fin (-5)), .str "ON", 1000000⟩ (by
      simp only [run, handle]
      rw [postData_readings_pair]
      simp [Server.init, validPayload, distanceOf, motorOf, bodyOrEmpty, payload, JsVal.truthy,
        JsVal.getProp, List.lookup, motorIncluded, readingOf])

/-! ## Spacing of deliveries over a sequence of requests -/

/-- A call of `sendAlert` is made only when the cooldown has elapsed. -/
theorem postData_attempt_cond (s : Server) (body : JsVal) (e : Env)
    (h : (postData s body e).attempt.isSome = true) :
    e.nowClock - s.lastAlertTime ≥ 300000 := by
  cases hval : validPayload body
  · rw [postData_invalid s body e hval] at h
    simp at h
  · obtain ⟨d, hv⟩ := validReading_of_validPayload hval
    rw [postData_valid s body e d hv] at h
    by_cases hc : d.lt (.fin 200) = true ∧ e.nowClock - s.lastAlertTime ≥ ALERT_COOLDOWN
    · rw [← ALERT_COOLDOWN_eq]
      exact hc.2
    · rw [if_neg hc] at h
      simp at h

/-- On delivery the handler stores its local `now`. -/
theorem postData_lastAlertTime_of_sent (s : Server) (body : JsVal) (e : Env)
    (h : ∃ a, (postData s body e).attempt = some a ∧ a.emailSent = true) :
    (postData s body e).server.lastAlertTime = e.nowClock := by
  obtain ⟨a, ha, hsent⟩ := h
  cases hval : validPayload body
  · rw [postData_invalid s body e hval] at ha
    simp at ha
  · obtain ⟨d, hv⟩ := validReading_of_validPayload hval
    rw [postData_valid s body e d hv] at ha ⊢
    by_cases hc : d.lt (.fin 200) = true ∧ e.nowClock - s.lastAlertTime ≥ ALERT_COOLDOWN
    · rw [if_pos hc] at ha ⊢
      simp only [Option.some.injEq] at ha
      subst ha
      simp only at hsent
      simp [hsent]
    · rw [if_neg hc] at ha
      simp at ha

/-- The variable `lastAlertTime` never decreases. -/
theorem postData_lastAlertTime_mono (s : Server) (body : JsVal) (e : Env) :
    s.lastAlertTime ≤ (postData s body e).server.lastAlertTime := by
  cases hval : validPayload body
  · rw [postData_invalid s body e hval]
  · obtain ⟨d, hv⟩ := validReading_of_validPayload hval
    rw [postData_valid s body e d hv]
    by_cases hc : d.lt (.fin 200) = true ∧ e.nowClock - s.lastAlertTime ≥ ALERT_COOLDOWN
    · rw [if_pos hc]
      have h2 := hc.2
      rw [ALERT_COOLDOWN_eq] at h2
      by_cases hs : sendAlert (.num d) (motorOf body) e.mail = true
      · simp only [hs, if_true]
        omega
      · simp only [hs]
        simp
    · rw [if_neg hc]

/-- Every call of `sendAlert` in a run from `s` is made at least a cooldown
after `s.lastAlertTime`. -/
theorem tracePosts_attempt_bound (posts : List Post) (s : Server) (j : Nat)
    (rj : Post) (oj : PostResult)
    (hrj : posts[j]? = some rj) (hoj : (tracePosts s posts)[j]? = some oj)
    (hatt : oj.attempt.isSome = true) :
    rj.2.nowClock ≥ s.lastAlertTime + 300000 := by
  induction posts generalizing s j with
  | nil => simp at hrj
  | cons r rs ih =>
    cases j with
    | zero =>
      simp only [List.getElem?_cons_zero, Option.some.injEq] at hrj
      simp only [tracePosts, List.getElem?_cons_zero, Option.some.injEq] at hoj
      subst hrj
      subst hoj
      have := postData_attempt_cond s r.1 r.2 hatt
      omega
    | succ k =>
      simp only [List.getElem?_cons_succ] at hrj
      simp only [tracePosts, List.getElem?_cons_succ] at hoj
      have h1 := ih (postData s r.1 r.2).server k hrj hoj
      have h2 := postData_lastAlertTime_mono s r.1 r.2
      omega

theorem tracePosts_spacing (posts : List Post) (s : Server) (i j : Nat)
    (ri rj : Post) (oi oj : PostResult) (hij : i < j)
    (hri : posts[i]? = some ri) (hrj : posts[j]? = some rj)
    (hoi : (tracePosts s posts)[i]? = some oi)
    (hoj : (tracePosts s posts)[j]? = some oj)
    (hsent : ∃ a, oi.attempt = some a ∧ a.emailSent = true)
    (hatt : oj.attempt.isSome = true) :
    rj.2.nowClock ≥ ri.2.nowClock + 300000 := by
  induction posts generalizing s i j with
  | nil => simp at hri
  | cons r rs ih =>
    cases j with
    | zero => omega
    | succ k =>
      simp only [List.getElem?_cons_succ] at hrj
      simp only [tracePosts, List.getElem?_cons_succ] at hoj
      cases i with
      | zero =>
        simp only [List.getElem?_cons_zero, Option.some.injEq] at hri
        simp only [tracePosts, List.getElem?_cons_zero, Option.some.injEq] at hoi
        subst hri
        subst hoi
        have h1 := postData_lastAlertTime_of_sent s r.1 r.2 hsent
        have h2 := tracePosts_attempt_bound rs (postData s r.1 r.2).server k rj oj hrj hoj hatt
        omega
      | succ m =>
        simp only [List.getElem?_cons_succ] at hri
        simp only [tracePosts, List.getElem?_cons_succ] at hoi
        exact ih (postData s r.1 r.2).server m k (by omega) hri hrj hoi hoj

/-- Counterexample to C5 as stated, the clock value of a successful delivery
being the one at which `sendAlert` returns true: the first request reads
`now = 1700000000000` and its delivery is confirmed 2 s later, at
1700000002000; the second request, handled after the first has completed,
reads `now = 1700000300000`, finds `now - lastAlertTime = 300000` and calls
`sendAlert`, less than 300000 ms after the confirmation. -/
theorem c5_confirmation_time_counterexample :
    ¬ ∀ (posts : List Post) (i j : Nat) (ri rj : Post) (oi oj : PostResult), i < j →
      posts[i]? = some ri → posts[j]? = some rj →
      (tracePosts Server.init posts)[i]? = some oi →
      (tracePosts Server.init posts)[j]? = some oj →
      (∃ a, oi.attempt = some a ∧ a.emailSent = true) →
      oj.attempt.isSome = true →
      rj.2.nowClock ≥ ri.2.settleClock + 300000 := by
  intro h
  have h1 := h
    [(payload 150 "ON", ⟨1700000000000, 1700000000000, .ok "m0", 1700000002000⟩),
     (payload 140 "ON", ⟨1700000300000, 1700000300000, .ok "m1", 1700000300400⟩)]
    0 1
    (payload 150 "ON", ⟨1700000000000, 1700000000000, .ok "m0", 1700000002000⟩)
    (payload 140 "ON", ⟨1700000300000, 1700000300000, .ok "m1", 1700000300400⟩)
    (postData Server.init (payload 150 "ON")
      ⟨1700000000000, 1700000000000, .ok "m0", 1700000002000⟩)
    (postData (postData Server.init (payload 150 "ON")
      ⟨1700000000000, 1700000000000, .ok "m0", 1700000002000⟩).server (payload 140 "ON")
      ⟨1700000300000, 1700000300000, .ok "m1", 1700000300400⟩)
    (by decide) rfl rfl rfl rfl
    ⟨⟨.num (.fin 150), .str "ON", true⟩, by
      rw [postData_valid Server.init (payload 150 "ON") _ (.fin 150) ⟨rfl, Or.inl rfl⟩]
      simp [JsNum.lt, ALERT_COOLDOWN, sendAlert, motorOf, bodyOrEmpty, payload, JsVal.truthy,
        JsVal.getProp, List.lookup, Server.init]
      norm_num, rfl⟩
    (by
      rw [postData_valid _ (payload 140 "ON") _ (.fin 140) ⟨rfl, Or.inl rfl⟩,
        postData_valid Server.init (payload 150 "ON") _ (.fin 150) ⟨rfl, Or.inl rfl⟩]
      simp [JsNum.lt, ALERT_COOLDOWN, sendAlert, Server.init]
      norm_num)
  norm_num at h1

/-- C5 (amended): in a sequence of `POST /data` requests handled one at a time
from the initial state, with any payloads, clock values and mail outcomes, if
request `i` gets true from `sendAlert` having read `now = t` before the call,
then every later request `j` that calls `sendAlert` has read
`now >= t + 300000`; in particular the `now` values of two requests that both
get true are at least 300000 ms apart. -/
theorem c5_attempts_spaced_after_delivery (posts : List Post) (i j : Nat)
    (ri rj : Post) (oi oj : PostResult) (hij : i < j)
    (hri : posts[i]? = some ri) (hrj : posts[j]? = some rj)
    (hoi : (tracePosts Server.init posts)[i]? = some oi)
    (hoj : (tracePosts Server.init posts)[j]? = some oj)
    (hsent : ∃ a, oi.attempt = some a ∧ a.emailSent = true) :
    (oj.attempt.isSome = true → rj.2.nowClock ≥ ri.2.nowClock + 300000) ∧
    ((∃ a, oj.attempt = some a ∧ a.emailSent = true) →
      rj.2.nowClock ≥ ri.2.nowClock + 300000) := by
  constructor
  · intro hatt
    exact tracePosts_spacing posts Server.init i j ri rj oi oj hij hri hrj hoi hoj hsent hatt
  · rintro ⟨a, ha, _⟩
    exact tracePosts_spacing posts Server.init i j ri rj oi oj hij hri hrj hoi hoj hsent
      (by rw [ha]; rfl)

/-- Witness for the amended C5: in `scenario` the second request delivers at `t0 + 1 s` and
the fourth calls `sendAlert` at `t0 + 6 min`. -/
theorem c5_attempts_spaced_after_delivery_witness :
    ((postData (postData (postData (postData Server.init (payload 250 "OFF")
        ⟨1700000000000, 1700000000000, .ok "m0", 1700000000400⟩).server (payload 150 "ON")
        ⟨1700000001000, 1700000001000, .ok "m1", 1700000001400⟩).server (payload 140 "ON")
        ⟨1700000060000, 1700000060000, .ok "m2", 1700000060400⟩).server (payload 130 "ON")
        ⟨1700000360000, 1700000360000, .ok "m3", 1700000360400⟩).attempt.isSome = true →
      (1700000360000 : Int) ≥ 1700000001000 + 300000) ∧
    ((∃ a, (postData (postData (postData (postData Server.init (payload 250 "OFF")
        ⟨1700000000000, 1700000000000, .ok "m0", 1700000000400⟩).server (payload 150 "ON")
        ⟨1700000001000, 1700000001000, .ok "m1", 1700000001400⟩).server (payload 140 "ON")
        ⟨1700000060000, 1700000060000, .ok "m2", 1700000060400⟩).server (payload 130 "ON")
        ⟨1700000360000, 1700000360000, .ok "m3", 1700000360400⟩).attempt = some a ∧
        a.emailSent = true) →
      (1700000360000 : Int) ≥ 1700000001000 + 300000) :=
  c5_attempts_spaced_after_delivery scenario 1 3
    (payload 150 "ON", ⟨1700000001000, 1700000001000, .ok "m1", 1700000001400⟩)
    (payload 130 "ON", ⟨1700000360000, 1700000360000, .ok "m3", 1700000360400⟩)
    (postData (postData Server.init (payload 250 "OFF")
      ⟨1700000000000, 1700000000000, .ok "m0", 1700000000400⟩).server (payload 150 "ON")
      ⟨1700000001000, 1700000001000, .ok "m1", 1700000001400⟩)
    (postData (postData (postData (postData Server.init (payload 250 "OFF")
      ⟨1700000000000, 1700000000000, .ok "m0", 1700000000400⟩).server (payload 150 "ON")
      ⟨1700000001000, 1700000001000, .ok "m1", 1700000001400⟩).server (payload 140 "ON")
      ⟨1700000060000, 1700000060000, .ok "m2", 1700000060400⟩).server (payload 130 "ON")
      ⟨1700000360000, 1700000360000, .ok "m3", 1700000360400⟩)
    (by decide) rfl rfl rfl rfl
    ⟨⟨.num (.fin 150), .str "ON", true⟩, by
      rw [postData_valid _ (payload 150 "ON") _ (.fin 150) ⟨rfl, Or.inl rfl⟩,
        postData_valid _ (payload 250 "OFF") _ (.fin 250) ⟨rfl, Or.inr rfl⟩]
      simp [JsNum.lt, ALERT_COOLDOWN, sendAlert, motorOf, bodyOrEmpty, payload, JsVal.truthy,
        JsVal.getProp, List.lookup, Server.init]
      norm_num, rfl⟩

/-! ## Handlers interleaved at `await sendAlert` -/

/-- A request dispatched while no handler is suspended, followed at once by the
settlement of its mail, is the handler `postData` run alone. -/
theorem Sys.run_serial (σ : Sys) (hp : σ.pending = []) (id : Nat) (body : JsVal) (e : Env)
    (rest : List Event) :
    Sys.run σ (.request id body e.tsClock e.nowClock :: .settled id e.mail :: rest) =
      Sys.run
        { server := (postData σ.server body e).server
          pending := []
          attempts := σ.attempts ++
            (if (postData σ.server body e).attempt.isSome = true then [(id, e.nowClock)] else [])
          delivered := σ.delivered ++
            (if (postData σ.server body e).delivered = true then [(id, e.nowClock)] else [])
          responses := σ.responses ++ [(id, (postData σ.server body e).response)] } rest := by
  obtain ⟨srv, pend, att, del, resp⟩ := σ
  simp only at hp
  subst hp
  cases hval : validPayload body
  · simp [Sys.run, Sys.step, postData_invalid _ body e hval,
      postDataStart_invalid _ body e.tsClock e.nowClock hval, PostResult.delivered]
  · obtain ⟨d, hv⟩ := validReading_of_validPayload hval
    by_cases hc : d.lt (.fin 200) = true ∧ e.nowClock - srv.lastAlertTime ≥ ALERT_COOLDOWN
    · cases hs : sendAlert (.num d) (motorOf body) e.mail <;>
        simp [Sys.run, Sys.step, postData_valid _ body e d hv,
          postDataStart_valid _ body e.tsClock e.nowClock d hv, PostResult.delivered, hc, hs,
          postDataResume]
    · simp [Sys.run, Sys.step, postData_valid _ body e d hv,
        postDataStart_valid _ body e.tsClock e.nowClock d hv, PostResult.delivered, hc]

theorem PostResult.delivered_iff (o : PostResult) :
    o.delivered = true ↔ ∃ a, o.attempt = some a ∧ a.emailSent = true := by
  unfold PostResult.delivered
  cases h : o.attempt <;> simp

/-- Counterexample to C10 as stated: two readings below the threshold, the
second dispatched 500 ms after the first while the first handler is suspended
at `await sendAlert`. Both handlers find the cooldown elapsed, both call
`sendAlert` and both get true. -/
theorem c10_interleaved_double_alert_counterexample :
    (Sys.run (Sys.idle Server.init)
      [.request 1 (payload 150 "ON") 1700000000000 1700000000000,
       .request 2 (payload 140 "ON") 1700000000500 1700000000500,
       .settled 1 (.ok "m1"),
       .settled 2 (.ok "m2")]).attempts = [(1, 1700000000000), (2, 1700000000500)] ∧
    (Sys.run (Sys.idle Server.init)
      [.request 1 (payload 150 "ON") 1700000000000 1700000000000,
       .request 2 (payload 140 "ON") 1700000000500 1700000000500,
       .settled 1 (.ok "m1"),
       .settled 2 (.ok "m2")]).delivered = [(1, 1700000000000), (2, 1700000000500)] ∧
    DoubleAlert (Sys.run (Sys.idle Server.init)
      [.request 1 (payload 150 "ON") 1700000000000 1700000000000,
       .request 2 (payload 140 "ON") 1700000000500 1700000000500,
       .settled 1 (.ok "m1"),
       .settled 2 (.ok "m2")]) 1 2 := by
  have hrun : Sys.run (Sys.idle Server.init)
      [.request 1 (payload 150 "ON") 1700000000000 1700000000000,
       .request 2 (payload 140 "ON") 1700000000500 1700000000500,
       .settled 1 (.ok "m1"),
       .settled 2 (.ok "m2")] =
      ⟨⟨[⟨.num (.fin 150), .str "ON", 1700000000000⟩,
          ⟨.num (.fin 140), .str "ON", 1700000000500⟩], 1700000000500⟩, [],
        [(1, 1700000000000), (2, 1700000000500)], [(1, 1700000000000), (2, 1700000000500)],
        [(1, okResponse), (2, okResponse)]⟩ := by
    have hm1 : motorOf (payload 150 "ON") = .str "ON" := rfl
    have hm2 : motorOf (payload 140 "ON") = .str "ON" := rfl
    simp only [Sys.run, Sys.step, Sys.idle, Server.init,
      postDataStart_valid _ (payload 150 "ON") _ _ (.fin 150) ⟨rfl, Or.inl rfl⟩,
      postDataStart_valid _ (payload 140 "ON") _ _ (.fin 140) ⟨rfl, Or.inl rfl⟩, hm1, hm2]
    simp [JsNum.lt, ALERT_COOLDOWN, sendAlert, postDataResume]
    norm_num
  rw [hrun]
  refine ⟨rfl, rfl, 1700000000000, 1700000000500, ?_, ?_, ?_⟩
  · simp
  · simp
  · norm_num

/-- C10 (amended): each synchronous segment of the handler runs without
interruption, but the handler is not atomic across `await sendAlert`. When the
second request is dispatched after the first handler has completed, it never
happens that the first gets true from `sendAlert` at `now = t` and the second
calls `sendAlert` with its `now` before `t + 300000`. -/
theorem c10_serial_no_double_alert (s : Server) (a b : Nat) (hab : a ≠ b)
    (bodyA bodyB : JsVal) (eA eB : Env) :
    ¬ DoubleAlert (Sys.run (Sys.idle s)
      [.request a bodyA eA.tsClock eA.nowClock, .settled a eA.mail,
       .request b bodyB eB.tsClock eB.nowClock, .settled b eB.mail]) a b := by
  rw [Sys.run_serial (Sys.idle s) rfl a bodyA eA, Sys.run_serial _ rfl b bodyB eB]
  simp only [Sys.run, Sys.idle, List.nil_append]
  rintro ⟨ta, tb, hdel, hatt, hlt⟩
  simp only [List.mem_append] at hdel hatt
  have hA : (postData s bodyA eA).delivered = true ∧ ta = eA.nowClock := by
    rcases hdel with h | h
    · by_cases hd : (postData s bodyA eA).delivered = true
      · simp [hd] at h
        exact ⟨hd, h⟩
      · simp [hd] at h
    · by_cases hd : (postData (postData s bodyA eA).server bodyB eB).delivered = true
      · simp [hd] at h
        exact absurd h.1 hab
      · simp [hd] at h
  have hB : (postData (postData s bodyA eA).server bodyB eB).attempt.isSome = true ∧
      tb = eB.nowClock := by
    rcases hatt with h | h
    · by_cases hd : (postData s bodyA eA).attempt.isSome = true
      · simp [hd] at h
        exact absurd h.1.symm hab
      · simp [hd] at h
    · by_cases hd : (postData (postData s bodyA eA).server bodyB eB).attempt.isSome = true
      · simp [hd] at h
        exact ⟨hd, h⟩
      · simp [hd] at h
  have h1 := postData_lastAlertTime_of_sent s bodyA eA ((PostResult.delivered_iff _).1 hA.1)
  have h2 := postData_attempt_cond _ bodyB eB hB.1
  obtain ⟨_, rfl⟩ := hA
  obtain ⟨_, rfl⟩ := hB
  omega

/-- Witness for the amended C10: the two requests of the counterexample, the
second dispatched after the first handler has completed. -/
theorem c10_serial_no_double_alert_witness :
    ¬ DoubleAlert (Sys.run (Sys.idle Server.init)
      [.request 1 (payload 150 "ON") 1700000000000 1700000000000, .settled 1 (.ok "m1"),
       .request 2 (payload 140 "ON") 1700000000500 1700000000500, .settled 2 (.ok "m2")]) 1 2 :=
  c10_serial_no_double_alert Server.init 1 2 (by decide) (payload 150 "ON") (payload 140 "ON")
    ⟨1700000000000, 1700000000000, .ok "m1", 1700000000400⟩
    ⟨1700000000500, 1700000000500, .ok "m2", 1700000000900⟩

end Drain
